import Mathlib

/-!
Shallow embedding of the fordefi vesting scheduler:
`vesting_manager.py`, `vesting_scripts/transfer_native_gcp.py` and
`vesting_scripts/transfer_token_gcp.py`.

Conventions of the embedding:
* Time is integer seconds since the Unix epoch.  Python aware
  `datetime` values compare by their UTC instant, so an instant is a
  plain integer; converting an instant to civil (wall-clock) CET time
  is adding the UTC offset `off` (in seconds) that the timezone
  library assigns to the instant being converted, and converting back
  subtracts the same offset (pytz attaches a fixed offset to the value
  produced by `astimezone`, which `replace` and `+ timedelta` keep).
* `Decimal` values are a non-negative coefficient together with a
  power-of-ten exponent, exactly as in Python's decimal module; the
  default context (28 significant digits, ROUND_HALF_EVEN) is applied
  to multiplication results, as Python does.
* External effects (secret fetch, signing, HTTP broadcast, the wall
  clock read for the `x-timestamp` header) are an `Oracle` record of
  outcomes; `Except String` models a raised-and-propagating Python
  exception.
-/

/- ---------------------------------------------------------------- -/
/- Vest timing engine (vesting_manager.py)                          -/
/- ---------------------------------------------------------------- -/

/-- `compute_first_vesting_date`: `datetime.now(pytz.UTC) + timedelta(days=cliff_days)`.
`timedelta(days=k)` is exactly `k * 86400` seconds. -/
def compute_first_vesting_date (now cliff_days : ℤ) : ℤ :=
  now + cliff_days * 86400

/-- Python `str.split(sep)` for a one-character separator, on the
character list of the string (an empty string yields one empty
field, as in Python). -/
def splitOnChar (sep : Char) : List Char → List (List Char)
  | [] => [[]]
  | c :: rest =>
      let r := splitOnChar sep rest
      if c = sep then [] :: r
      else
        match r with
        | [] => [[c]]
        | h :: t => (c :: h) :: t

/-- Python `str.lower()` (the tickers and chain names are ASCII). -/
def pyLower (s : String) : String :=
  ⟨s.data.map Char.toLower⟩

/-- Python `str.strip()`. -/
def pyStrip (s : String) : String :=
  ⟨((s.data.dropWhile Char.isWhitespace).reverse.dropWhile Char.isWhitespace).reverse⟩

/-- Numeric value of an all-digit character run (how Python `int`
reads it). -/
def digitsVal (l : List Char) : ℕ :=
  l.foldl (fun a c => a * 10 + (c.toNat - 48)) 0

/-- Python `int(piece)` on one piece of `vesting_time.split(":")`:
succeeds exactly on a non-empty run of digits (sign/whitespace forms do
not occur in `HH:MM` strings and are not modelled). -/
def parseDigits (l : List Char) : Option ℕ :=
  if l ≠ [] ∧ l.all Char.isDigit then some (digitsVal l) else none

/-- `vest_hour, vest_minute = map(int, vesting_time.split(":"))`:
fails (raises) unless the string is exactly two `:`-separated integer
fields. -/
def parse_vesting_time (s : String) : Option (ℕ × ℕ) :=
  match splitOnChar ':' s.data with
  | [hs, ms] => do
      let h ← parseDigits hs
      let m ← parseDigits ms
      pure (h, m)
  | _ => none

/-- The first-run computation inside `schedule_vesting_for_asset`:
convert `now + cliff_days` days to CET (offset `off` seconds),
overwrite hour/minute (zeroing seconds and microseconds), push one day
if the result is at or before `now`, and read the result back as a UTC
instant.  Integer division by 86400 (floor division, `Int.ediv`) extracts the civil day
start.  The two `datetime.now` calls of the source are modelled as the
single instant `now`. -/
def schedule_first_run (now off cliff_days : ℤ) (vest_hour vest_minute : ℕ) : ℤ :=
  let base := compute_first_vesting_date now cliff_days
  let civil := base + off
  let cliff_in_cet := (civil / 86400) * 86400 + (vest_hour : ℤ) * 3600 + (vest_minute : ℤ) * 60
  let first_try := cliff_in_cet - off
  if first_try ≤ now then first_try + 86400 else first_try

/- ---------------------------------------------------------------- -/
/- Python Decimal (decimal module, default context)                 -/
/- ---------------------------------------------------------------- -/

/-- A non-negative Python `Decimal`: value `coeff * 10 ^ exp`. -/
structure Dec where
  coeff : ℕ
  exp : ℤ
deriving DecidableEq, Repr

/-- Rational value of a `Dec`. -/
def Dec.toVal (d : Dec) : ℚ :=
  (d.coeff : ℚ) * (10 : ℚ) ^ d.exp

/-- `Decimal(value)` on a plain non-negative decimal literal
(`digits`, `digits.digits`, `.digits` or `digits.`): the coefficient is
the concatenated digit string read as a number, the exponent is minus
the length of the fractional part.  Construction is exact (no context
rounding), as in Python.  Signs, exponent notation and whitespace do
not occur in the vesting amounts and are not modelled; any other shape
raises `InvalidOperation`, modelled as `none`. -/
def parse_decimal (s : String) : Option Dec :=
  match splitOnChar '.' s.data with
  | [ip] =>
      if ip ≠ [] ∧ ip.all Char.isDigit then some ⟨digitsVal ip, 0⟩ else none
  | [ip, fp] =>
      if (ip ≠ [] ∨ fp ≠ []) ∧ ip.all Char.isDigit ∧ fp.all Char.isDigit then
        some ⟨digitsVal (ip ++ fp), -(fp.length : ℤ)⟩
      else none
  | _ => none

/-- Digit count of a coefficient (`0` counts as one digit), written
with structural fuel so the kernel can evaluate it. -/
def numDigitsAux : ℕ → ℕ → ℕ
  | 0, _ => 0
  | fuel + 1, n => if n < 10 then 1 else numDigitsAux fuel (n / 10) + 1

/-- Number of decimal digits of a coefficient. -/
def numDigits (n : ℕ) : ℕ := numDigitsAux (n + 1) n

/-- Drop the last `k` digits of `c` rounding half-to-even, the
`ROUND_HALF_EVEN` step of the default decimal context. -/
def roundHalfEvenDiv (c : ℕ) (k : ℕ) : ℕ :=
  let q := c / 10 ^ k
  let r := c % 10 ^ k
  let half := 10 ^ k / 2
  if half < r then q + 1
  else if r < half then q
  else q + q % 2

/-- Decimal multiplication under the default context: the exact
product, rounded to 28 significant digits (half-even) when its
coefficient is longer than that.  (The rounded coefficient is kept
un-renormalised; only the numeric value matters downstream.) -/
def decMul (a b : Dec) : Dec :=
  let c := a.coeff * b.coeff
  let e := a.exp + b.exp
  if numDigits c ≤ 28 then ⟨c, e⟩
  else
    let k := numDigits c - 28
    ⟨roundHalfEvenDiv c k, e + k⟩

/-- Python `int(d)` on a non-negative `Decimal`: truncation toward
zero, i.e. floor. -/
def intOfDec (d : Dec) : ℕ :=
  if 0 ≤ d.exp then d.coeff * 10 ^ d.exp.toNat else d.coeff / 10 ^ (-d.exp).toNat

/-- `Decimal('1000000000000000000')` (18 decimals). -/
def dec18 : Dec := ⟨10 ^ 18, 0⟩

/-- `Decimal('1000000')` (6 decimals). -/
def dec6 : Dec := ⟨10 ^ 6, 0⟩

/-- The claim's ideal semantics, written from its words: the integer
truncation (toward zero — for non-negative amounts, the floor) of the
exact product `amount * scale = (coeff * scale) * 10 ^ exp`, with no
precision limit.  `truncScaled_eq_floor` below identifies it with the
rational floor `⌊amount * scale⌋`. -/
def truncScaled (d : Dec) (scale : ℕ) : ℕ :=
  intOfDec ⟨d.coeff * scale, d.exp⟩

/- ---------------------------------------------------------------- -/
/- JSON values and json.dumps                                       -/
/- ---------------------------------------------------------------- -/

/-- A JSON value as the transfer scripts build them: every leaf is a
string and every node is an insertion-ordered object. -/
inductive Json where
  | str : String → Json
  | obj : List (String × Json) → Json

/-- One hex digit, lower case, as Python renders `\uXXXX` escapes. -/
def hexDigitChar (n : ℕ) : String :=
  String.singleton (Char.ofNat (if n < 10 then 48 + n else 87 + n))

/-- `json.dumps` escaping of one character (ASCII range; the payload
fields of this repository are ASCII, so the `ensure_ascii` escaping of
higher code points never fires and is not modelled). -/
def escapeChar (c : Char) : String :=
  if c = Char.ofNat 34 then "\\\""
  else if c = Char.ofNat 92 then "\\\\"
  else if c = Char.ofNat 10 then "\\n"
  else if c = Char.ofNat 9 then "\\t"
  else if c = Char.ofNat 13 then "\\r"
  else if c = Char.ofNat 8 then "\\b"
  else if c = Char.ofNat 12 then "\\f"
  else if c.toNat < 32 then "\\u00" ++ hexDigitChar (c.toNat / 16) ++ hexDigitChar (c.toNat % 16)
  else String.singleton c

/-- A JSON string literal: quotes around the escaped content. -/
def quoteStr (s : String) : String :=
  "\"" ++ String.join (s.data.map escapeChar) ++ "\""

mutual

/-- Python `json.dumps` with the default separators `", "` and `": "`,
preserving the insertion order of dict keys. -/
def Json.dumps : Json → String
  | .str s => quoteStr s
  | .obj fs => "\x7b" ++ dumpsFields fs ++ "\x7d"

/-- The comma-separated field list of an object. -/
def dumpsFields : List (String × Json) → String
  | [] => ""
  | [(k, v)] => quoteStr k ++ ": " ++ Json.dumps v
  | (k, v) :: f :: rest => quoteStr k ++ ": " ++ Json.dumps v ++ ", " ++ dumpsFields (f :: rest)

end

/-- Field lookup in an object field list. -/
def lookupField : List (String × Json) → String → Option Json
  | [], _ => none
  | (k, v) :: rest, key => if k = key then some v else lookupField rest key

/-- Field lookup on a JSON value. -/
def Json.get (j : Json) (key : String) : Option Json :=
  match j with
  | .str _ => none
  | .obj fs => lookupField fs key

/-- The `details.value.value` string of a built transaction request:
the on-chain value that the payload carries (for both the native and
the erc20 request shapes). -/
def jsonValueField (r : Except String Json) : Option String :=
  match r with
  | .error _ => none
  | .ok j =>
      match (j.get "details").bind (fun d => (d.get "value").bind (fun v => v.get "value")) with
      | some (.str s) => some s
      | _ => none

/- ---------------------------------------------------------------- -/
/- Transfer scripts (transfer_native_gcp.py, transfer_token_gcp.py) -/
/- ---------------------------------------------------------------- -/

/-- Outcomes of the external collaborators for one execution:
the GCP secret fetch, the API signer, the HTTP broadcast (already
translated to `RuntimeError` messages by `broadcast_tx`, which wraps
`requests`), and the `datetime.datetime.now().strftime("%s")` read. -/
structure Oracle where
  access_secret : Except String String
  sign : String → Except String String
  broadcast : String → String → String → String → String → Except String String
  timestamp : String

deriving instance DecidableEq for Except

/-- What one successful transfer run handed to its collaborators. -/
structure TransferTrace where
  path : String
  timestamp : String
  request_body : String
  payload : String
  access_token : String
  signature : String
  response : String
deriving DecidableEq, Repr

/-- An apostrophe character, kept out of the literals. -/
def apos : String := String.singleton (Char.ofNat 39)

/-- The `ValueError` message of `evm_tx_tokens` for an unsupported
token/chain combination. -/
def unsupportedTokenMsg (token evm_chain : String) : String :=
  "Token " ++ apos ++ token ++ apos ++ " is not supported for chain " ++ apos ++ evm_chain ++ apos

/-- `value_in_wei = str(int(Decimal(value) * Decimal('1000000000000000000')))`
(`none` models the `InvalidOperation` raised on a malformed amount). -/
def value_in_wei (value : String) : Option String :=
  (parse_decimal value).map (fun d => Nat.repr (intOfDec (decMul d dec18)))

/-- `str(int(Decimal(value) * Decimal('1000000')))`, the six-decimal
scaling of `evm_tx_tokens`. -/
def value_six_decimals (value : String) : Option String :=
  (parse_decimal value).map (fun d => Nat.repr (intOfDec (decMul d dec6)))

/-- `evm_tx_native`: builds the native-transfer request body. -/
def evm_tx_native (evm_chain vault_id destination custom_note value : String) :
    Except String Json :=
  match value_in_wei value with
  | none => .error "InvalidOperation"
  | some wei =>
      .ok (.obj [
        ("signer_type", .str "api_signer"),
        ("vault_id", .str vault_id),
        ("note", .str custom_note),
        ("type", .str "evm_transaction"),
        ("details", .obj [
          ("type", .str "evm_transfer"),
          ("gas", .obj [
            ("type", .str "priority"),
            ("priority_level", .str "medium")]),
          ("to", .str destination),
          ("asset_identifier", .obj [
            ("type", .str "evm"),
            ("details", .obj [
              ("type", .str "native"),
              ("chain", .str ("evm_" ++ evm_chain ++ "_mainnet"))])]),
          ("value", .obj [
            ("type", .str "value"),
            ("value", .str wei)])])])

/-- The erc20 request body shared by every supported combination of
`evm_tx_tokens`. -/
def tokenRequestJson (evm_chain vault_id destination custom_note contract_address scaled : String) : Json :=
  .obj [
    ("signer_type", .str "api_signer"),
    ("type", .str "evm_transaction"),
    ("details", .obj [
      ("type", .str "evm_transfer"),
      ("gas", .obj [
        ("type", .str "priority"),
        ("priority_level", .str "medium")]),
      ("to", .str destination),
      ("value", .obj [
        ("type", .str "value"),
        ("value", .str scaled)]),
      ("asset_identifier", .obj [
        ("type", .str "evm"),
        ("details", .obj [
          ("type", .str "erc20"),
          ("token", .obj [
            ("chain", .str ("evm_" ++ evm_chain ++ "_mainnet")),
            ("hex_repr", .str contract_address)])])])]),
    ("note", .str custom_note),
    ("vault_id", .str vault_id)]

/-- `evm_tx_tokens`: sanitises the ticker, scales the amount at 18 or
6 decimals, dispatches on chain/token, and raises `ValueError` for any
unsupported combination. -/
def evm_tx_tokens (evm_chain vault_id destination custom_note value token : String) :
    Except String Json :=
  let sanitized_token_name := pyStrip (pyLower token)
  match value_in_wei value, value_six_decimals value with
  | some v18, some v6 =>
      if evm_chain = "bsc" then
        if sanitized_token_name = "usdt" then
          .ok (tokenRequestJson evm_chain vault_id destination custom_note
            "0x55d398326f99059fF775485246999027B3197955" v18)
        else .error (unsupportedTokenMsg token evm_chain)
      else if evm_chain = "ethereum" then
        if sanitized_token_name = "usdt" then
          .ok (tokenRequestJson evm_chain vault_id destination custom_note
            "0xdAC17F958D2ee523a2206206994597C13D831ec7" v6)
        else if sanitized_token_name = "pepe" then
          .ok (tokenRequestJson evm_chain vault_id destination custom_note
            "0x6982508145454Ce325dDbE47a25d4ec3d2311933" v18)
        else if sanitized_token_name = "basedai" then
          .ok (tokenRequestJson evm_chain vault_id destination custom_note
            "0x44971ABF0251958492FeE97dA3e5C5adA88B9185" v18)
        else .error (unsupportedTokenMsg token evm_chain)
      else .error (unsupportedTokenMsg token evm_chain)
  | _, _ => .error "InvalidOperation"

/-- `broadcast_tx`: POST of `request_body` to the API; network and
HTTP failures arrive as the `RuntimeError` message it raises. -/
def broadcast_tx (o : Oracle) (path access_token signature timestamp request_body : String) :
    Except String String :=
  o.broadcast path access_token signature timestamp request_body

/-- `transfer_native_gcp`: fetch the API token, build the request,
serialise it once, sign `"<path>|<timestamp>|<body>"`, and broadcast
the very same body string. -/
def transfer_native_gcp (o : Oracle) (chain vault_id destination value note : String) :
    Except String TransferTrace := do
  let user_api_token ← o.access_secret
  let request_json ← evm_tx_native chain vault_id destination note value
  let request_body := Json.dumps request_json
  let timestamp := o.timestamp
  let payload := "/api/v1/transactions" ++ "|" ++ timestamp ++ "|" ++ request_body
  let signature ← o.sign payload
  let response ← broadcast_tx o "/api/v1/transactions" user_api_token signature timestamp request_body
  pure ⟨"/api/v1/transactions", timestamp, request_body, payload, user_api_token, signature, response⟩

/-- `transfer_token_gcp`: identical plumbing for erc20 transfers. -/
def transfer_token_gcp (o : Oracle) (chain token_ticker vault_id destination amount note : String) :
    Except String TransferTrace := do
  let user_api_token ← o.access_secret
  let request_json ← evm_tx_tokens chain vault_id destination note amount token_ticker
  let request_body := Json.dumps request_json
  let timestamp := o.timestamp
  let payload := "/api/v1/transactions" ++ "|" ++ timestamp ++ "|" ++ request_body
  let signature ← o.sign payload
  let response ← broadcast_tx o "/api/v1/transactions" user_api_token signature timestamp request_body
  pure ⟨"/api/v1/transactions", timestamp, request_body, payload, user_api_token, signature, response⟩

/- ---------------------------------------------------------------- -/
/- Vesting manager: configs and per-asset execution                 -/
/- ---------------------------------------------------------------- -/

/-- One config dict as `load_vesting_configs` assembles it. -/
structure Cfg where
  vault_id : String
  asset : String
  ecosystem : String
  type : String
  chain : String
  destination : String
  value : String
  note : String
  cliff_days : ℤ
  vesting_time : String
deriving DecidableEq, Repr

/-- Observable steps of `execute_vest_for_asset`: invocations of the
two Transfer Executor capabilities and the printed log lines. -/
inductive ExecEvent where
  | nativeCall : Cfg → ExecEvent
  | tokenCall : Cfg → ExecEvent
  | zeroSkip : String → ExecEvent
  | success : String → ExecEvent
  | errorCaught : String → ExecEvent
deriving DecidableEq, Repr

/-- The `try:` block of `execute_vest_for_asset`: which capability (if
any) is invoked, and the exception (if any) that reaches the `except`.
An invocation event is recorded as soon as the branch calls into the
transfer script, whether or not that call then raises. -/
def vest_try_body (o : Oracle) (cfg : Cfg) : List ExecEvent × Except String Unit :=
  if cfg.type = "native" ∧ cfg.ecosystem = "evm" ∧ cfg.value ≠ "0" then
    ([.nativeCall cfg],
      (transfer_native_gcp o cfg.chain cfg.vault_id cfg.destination cfg.value cfg.note).map
        (fun _ => ()))
  else if cfg.type = "erc20" ∧ cfg.ecosystem = "evm" ∧ cfg.value ≠ "0" then
    ([.tokenCall cfg],
      (transfer_token_gcp o cfg.chain (pyLower cfg.asset) cfg.vault_id cfg.destination cfg.value cfg.note).map
        (fun _ => ()))
  else if cfg.value = "0" then
    ([.zeroSkip cfg.asset], .ok ())
  else
    ([], .error ("Unsupported configuration: type=" ++ cfg.type ++ ", ecosystem=" ++ cfg.ecosystem))

/-- `execute_vest_for_asset`: the try body under the catch-all
`except Exception` — every exception becomes a printed line and the
function always returns normally. -/
def execute_vest_for_asset (o : Oracle) (cfg : Cfg) : List ExecEvent :=
  match vest_try_body o cfg with
  | (evs, .ok _) => evs ++ [.success cfg.asset]
  | (evs, .error e) => evs ++ [.errorCaught e]

/- ---------------------------------------------------------------- -/
/- The third-party `schedule` registry and the manager's jobs       -/
/- ---------------------------------------------------------------- -/

/-- The callables this program hands to the `schedule` library: the
per-asset `job_launcher` closure (capturing `cfg`, `first_run_utc` and
the tag it gives the follow-up job) and the recurring
`execute_vest_for_asset` job. -/
inductive JobTask where
  | launcher : Cfg → ℤ → String → JobTask
  | vest : Cfg → JobTask
deriving DecidableEq, Repr

/-- One `schedule` library job: its task, its period in seconds, its
tag and its `next_run` instant. -/
structure SJob where
  task : JobTask
  interval : ℤ
  tag : Option String
  nextRun : ℤ
deriving DecidableEq, Repr

/-- The module-level default scheduler: its job list, in registration
order (surviving jobs keep their position, new jobs are appended). -/
structure SchedState where
  jobs : List SJob
deriving DecidableEq, Repr

/-- `schedule.every(n).<unit>.do(f).tag(t)`: appends a job whose first
`next_run` is the registration instant plus the period. -/
def schedule_every (interval : ℤ) (task : JobTask) (tag : Option String) (now : ℤ)
    (s : SchedState) : SchedState :=
  ⟨s.jobs ++ [⟨task, interval, tag, now + interval⟩]⟩

/-- `schedule_vesting_for_asset`: parse `vesting_time` (a malformed
string or an out-of-range hour/minute raises out of the function, as
`map(int, ...)` / `datetime.replace` do), compute the first-run
instant, and register the one-minute `job_launcher`. -/
def schedule_vesting_for_asset (now off : ℤ) (cfg : Cfg) (tag : String) (s : SchedState) :
    Except String SchedState :=
  match parse_vesting_time cfg.vesting_time with
  | none => .error "invalid literal for int()"
  | some (h, m) =>
      if h ≥ 24 ∨ m ≥ 60 then .error "hour/minute must be in range"
      else
        .ok (schedule_every 60 (.launcher cfg (schedule_first_run now off cfg.cliff_days h m) tag)
          (some tag) now s)

/-- Running one due job at tick instant `t`: the replacement for the
job (none when it returns `CancelJob`), the jobs it registered, and the
execution events it produced.  A fired `job_launcher` executes the
vest, registers the 24-hour recurring job and cancels itself; a
launcher whose first-run instant is still ahead just reschedules one
minute later; a recurring vest job executes and reschedules its period
from `t`. -/
def runJob (o : Oracle) (t : ℤ) (j : SJob) : Option SJob × List SJob × List ExecEvent :=
  match j.task with
  | .launcher cfg first_run_utc tg =>
      if first_run_utc ≤ t then
        (none, [⟨.vest cfg, 86400, some tg, t + 86400⟩], execute_vest_for_asset o cfg)
      else
        (some { j with nextRun := t + j.interval }, [], [])
  | .vest cfg =>
      (some { j with nextRun := t + j.interval }, [], execute_vest_for_asset o cfg)

/-- Process the job list of one `run_pending` call: jobs whose
`next_run` has arrived are run (in list order; the library's sort by
`next_run` coincides with this whenever at most one job is due, as in
every scenario proved below), the others are kept untouched.  Returns
(surviving jobs, newly registered jobs, events). -/
def runJobs (o : Oracle) (t : ℤ) : List SJob → List SJob × List SJob × List ExecEvent
  | [] => ([], [], [])
  | j :: rest =>
      let r := runJobs o t rest
      if j.nextRun ≤ t then
        let x := runJob o t j
        (x.1.toList ++ r.1, x.2.1 ++ r.2.1, x.2.2 ++ r.2.2)
      else
        (j :: r.1, r.2.1, r.2.2)

/-- `schedule.run_pending()` at tick instant `t`. -/
def run_pending (o : Oracle) (t : ℤ) (s : SchedState) : SchedState × List ExecEvent :=
  let r := runJobs o t s.jobs
  (⟨r.1 ++ r.2.1⟩, r.2.2)

/-- `schedule.clear(tag)`. -/
def clear_tag (tg : String) (s : SchedState) : SchedState :=
  ⟨s.jobs.filter (fun j => j.tag ≠ some tg)⟩

/-- The re-scheduling loop of `refresh_vesting_schedules`: register
each loaded config in order; an exception raised for one config
propagates immediately, leaving the earlier registrations in place. -/
def schedule_all (now off : ℤ) : SchedState → List Cfg → SchedState × Option String
  | s, [] => (s, none)
  | s, cfg :: rest =>
      match schedule_vesting_for_asset now off cfg "vesting" s with
      | .ok s2 => schedule_all now off s2 rest
      | .error e => (s, some e)

/-- `refresh_vesting_schedules`: FIRST clears every job tagged
`vesting`, THEN loads the configs (outcome `fetch`), then re-schedules.
The second component is the exception propagating out of the refresh,
if any. -/
def refresh_vesting_schedules (now off : ℤ) (fetch : Except String (List Cfg))
    (s : SchedState) : SchedState × Option String :=
  let s1 := clear_tag "vesting" s
  match fetch with
  | .error e => (s1, some e)
  | .ok configs => schedule_all now off s1 configs

/- ---------------------------------------------------------------- -/
/- Concrete data for witnesses and counterexamples                  -/
/- ---------------------------------------------------------------- -/

/-- An oracle on which every collaborator succeeds. -/
def oW : Oracle :=
  ⟨.ok "token123", fun p => .ok ("sig:" ++ p), fun _ _ _ _ _ => .ok "accepted", "1700000000"⟩

/-- An oracle whose broadcast fails with a network error. -/
def oFail : Oracle :=
  ⟨.ok "token123", fun p => .ok ("sig:" ++ p),
    fun _ _ _ _ _ => .error "Network error occurred: connection refused", "1700000000"⟩

/-- A plain valid native-BNB config. -/
def cfgBNB : Cfg :=
  ⟨"vault-1", "BNB", "evm", "native", "bsc", "0xdest", "1.5", "Daily BNB vesting", 0, "00:02"⟩

/-- The same config with the numerically-zero amount string `"0.0"`. -/
def cfgZeroDot : Cfg :=
  { cfgBNB with value := "0.0" }

/-- The unsupported combination of the spec's scenario:
`chain="polygon"`, `asset="USDT"` as an erc20. -/
def cfgPoly : Cfg :=
  ⟨"vault-2", "USDT", "evm", "erc20", "polygon", "0xdest2", "5", "Daily USDT vesting", 0, "13:00"⟩

/-- A valid sibling erc20 config in the same batch. -/
def cfgGoodUSDT : Cfg :=
  ⟨"vault-3", "USDT", "evm", "erc20", "bsc", "0xdest3", "5", "Daily USDT vesting", 0, "13:00"⟩

/-- Unwrap a computation known to succeed (used only to name concrete
witness values). -/
def okOr (r : Except String SchedState) (dflt : SchedState) : SchedState :=
  match r with
  | .ok s => s
  | .error _ => dflt

/-- Unwrap a transfer computation known to succeed. -/
def okTraceOr (r : Except String TransferTrace) (dflt : TransferTrace) : TransferTrace :=
  match r with
  | .ok tr => tr
  | .error _ => dflt

/-- The config with the literal amount string `"0"`. -/
def cfgZeroLit : Cfg :=
  { cfgBNB with value := "0" }

/-- An amount with 31 significant digits, past the 28-digit precision
of the default decimal context. -/
def hugeAmt : String := "0.9999999999999999999999999999999"

/- ================================================================ -/
/- Theorems                                                         -/
/- ================================================================ -/

/-- C5 (confirmed): for every `cliff_days ≥ 0`, every CET offset and
every valid `HH:MM` vesting time, the computed first-run instant is
strictly after the `now` instant at which the schedule is built. -/
theorem C5_first_run_strictly_future (now off cliff_days : ℤ) (h m : ℕ)
    (hc : 0 ≤ cliff_days) (hh : h < 24) (hm : m < 60) :
    now < schedule_first_run now off cliff_days h m := by
  unfold schedule_first_run compute_first_vesting_date
  simp only []
  have hq := Int.ediv_add_emod (now + cliff_days * 86400 + off) 86400
  have hr1 := Int.emod_nonneg (now + cliff_days * 86400 + off) (by norm_num : (86400 : ℤ) ≠ 0)
  have hr2 := Int.emod_lt_of_pos (now + cliff_days * 86400 + off) (by norm_num : (0 : ℤ) < 86400)
  split <;> omega

/-- Witness for C5 at `now = 0`, CET offset `+1h`, no cliff,
vesting time 09:00. -/
theorem C5_witness : (0 : ℤ) < schedule_first_run 0 3600 0 9 0 :=
  C5_first_run_strictly_future 0 3600 0 9 0 (by decide) (by decide) (by decide)

/-- C6 (confirmed): with `now = 2024-01-01T10:00:00Z` (epoch
1704103200), CET at UTC+1 (3600 s) and no cliff, vesting time 09:00
lands on `2024-01-02T08:00:00Z` (1704182400, pushed one day) and
13:00 lands on `2024-01-01T12:00:00Z` (1704110400, same day). -/
theorem C6_concrete_first_runs :
    parse_vesting_time "09:00" = some (9, 0) ∧
    parse_vesting_time "13:00" = some (13, 0) ∧
    schedule_first_run 1704103200 3600 0 9 0 = 1704182400 ∧
    schedule_first_run 1704103200 3600 0 13 0 = 1704110400 :=
  ⟨by decide, by decide, by decide, by decide⟩

/-- C1 (corrected) counterexample: register `cfgBNB` at `now = 30`
(CET offset 0).  Its `first_run_at` is 120 and the launcher first
checks at 90, then at 150.  The tick at 90 is before the first-run
instant; the tick at 150 fires and schedules the recurring job for
`150 + 86400 = 86550` — not `first_run_at + 86400 = 86520` as the
claim requires. -/
theorem C1_counterexample :
    schedule_vesting_for_asset 30 0 cfgBNB "vesting" ⟨[]⟩
      = .ok ⟨[⟨.launcher cfgBNB 120 "vesting", 60, some "vesting", 90⟩]⟩ ∧
    (run_pending oW 90 ⟨[⟨.launcher cfgBNB 120 "vesting", 60, some "vesting", 90⟩]⟩).1
      = ⟨[⟨.launcher cfgBNB 120 "vesting", 60, some "vesting", 150⟩]⟩ ∧
    (run_pending oW 150 ⟨[⟨.launcher cfgBNB 120 "vesting", 60, some "vesting", 150⟩]⟩).1
      = ⟨[⟨.vest cfgBNB, 86400, some "vesting", 86550⟩]⟩ ∧
    (86550 : ℤ) ≠ 120 + 86400 :=
  ⟨by decide, by decide, by decide, by decide⟩

/-- C1 (corrected) amended claim: the recurring schedule is measured
from the actual firing ticks, not from `first_run_at`.  When the
launcher runs at a tick instant `t` past its registered first-run
instant, it fires exactly one execution and registers the recurring
job at `t + 24h` (for any executor outcome, so also after an
ExecutionError — errors are caught inside the execution); and when a
recurring job fires at tick instant `t`, its next run becomes
`t + interval`, so missed windows advance the schedule past `now` with
at most one catch-up execution, but to `t + 24h` rather than to the
smallest `first_run_at + k*24h` after `now`. -/
theorem C1_amended_recurrence_from_ticks :
    (∀ (o : Oracle) (cfg : Cfg) (first_run_utc t iv nr : ℤ) (tg : String) (tago : Option String),
        nr ≤ t → first_run_utc ≤ t →
        run_pending o t ⟨[⟨.launcher cfg first_run_utc tg, iv, tago, nr⟩]⟩
          = (⟨[⟨.vest cfg, 86400, some tg, t + 86400⟩]⟩, execute_vest_for_asset o cfg)) ∧
    (∀ (o : Oracle) (cfg : Cfg) (t iv nr : ℤ) (tago : Option String),
        nr ≤ t →
        run_pending o t ⟨[⟨.vest cfg, iv, tago, nr⟩]⟩
          = (⟨[⟨.vest cfg, iv, tago, t + iv⟩]⟩, execute_vest_for_asset o cfg)) := by
  constructor
  · intro o cfg first_run_utc t iv nr tg tago h1 h2
    simp [run_pending, runJobs, runJob, h1, h2]
  · intro o cfg t iv nr tago h1
    simp [run_pending, runJobs, runJob, h1]

/-- Witness for C1's amended claim: the launcher firing at tick 150
with `first_run_at = 120`, and a recurring job catching up at tick
90000, both under the failing-broadcast oracle. -/
theorem C1_amended_witness :
    run_pending oFail 150 ⟨[⟨.launcher cfgBNB 120 "vesting", 60, some "vesting", 150⟩]⟩
      = (⟨[⟨.vest cfgBNB, 86400, some "vesting", 150 + 86400⟩]⟩,
          execute_vest_for_asset oFail cfgBNB) ∧
    run_pending oFail 90000 ⟨[⟨.vest cfgBNB, 86400, some "vesting", 86550⟩]⟩
      = (⟨[⟨.vest cfgBNB, 86400, some "vesting", 90000 + 86400⟩]⟩,
          execute_vest_for_asset oFail cfgBNB) :=
  ⟨C1_amended_recurrence_from_ticks.1 oFail cfgBNB 120 150 60 150 "vesting" (some "vesting")
      (by decide) (by decide),
    C1_amended_recurrence_from_ticks.2 oFail cfgBNB 90000 86400 86550 (some "vesting")
      (by decide)⟩

/-- C2 (corrected) counterexample: registering the same config twice
leaves TWO launcher jobs, not one; and a later refresh does not leave
an existing identity untouched — it clears the job and re-creates it
with a `first_run_at` recomputed from the refresh-time clock (here 120
becomes 172920). -/
theorem C2_counterexample :
    (okOr (do
        let s1 ← schedule_vesting_for_asset 30 0 cfgBNB "vesting" ⟨[]⟩
        schedule_vesting_for_asset 30 0 cfgBNB "vesting" s1) ⟨[]⟩).jobs.length = 2 ∧
    refresh_vesting_schedules 90000 0 (.ok [cfgBNB])
        ⟨[⟨.launcher cfgBNB 120 "vesting", 60, some "vesting", 90⟩]⟩
      = (⟨[⟨.launcher cfgBNB 172920 "vesting", 60, some "vesting", 90060⟩]⟩, none) ∧
    (172920 : ℤ) ≠ 120 :=
  ⟨by decide, by decide, by decide⟩

/-- C2 (corrected) amended claim: registration is never a no-op.
Every successful `schedule_vesting_for_asset` call appends one fresh
launcher job to whatever is already scheduled — also when a live job
for the same config identity is present — with `first_run_at`
recomputed from the current clock; the daily refresh deduplicates only
because it first clears every `vesting`-tagged job. -/
theorem C2_amended_register_always_appends (now off : ℤ) (cfg : Cfg) (tg : String)
    (s : SchedState) (h m : ℕ)
    (hp : parse_vesting_time cfg.vesting_time = some (h, m))
    (hh : h < 24) (hm : m < 60) :
    schedule_vesting_for_asset now off cfg tg s
      = .ok ⟨s.jobs ++
          [⟨.launcher cfg (schedule_first_run now off cfg.cliff_days h m) tg, 60, some tg, now + 60⟩]⟩ := by
  unfold schedule_vesting_for_asset schedule_every
  rw [hp]
  dsimp only
  rw [if_neg (by omega)]

/-- Witness for C2's amended claim: registering `cfgBNB` on a state
that already holds a live job for the same identity appends a second
job instead of leaving the state unchanged. -/
theorem C2_amended_witness :
    schedule_vesting_for_asset 30 0 cfgBNB "vesting"
        ⟨[⟨.launcher cfgBNB 120 "vesting", 60, some "vesting", 90⟩]⟩
      = .ok ⟨(⟨[⟨.launcher cfgBNB 120 "vesting", 60, some "vesting", 90⟩]⟩ : SchedState).jobs ++
          [⟨.launcher cfgBNB (schedule_first_run 30 0 cfgBNB.cliff_days 0 2) "vesting", 60,
            some "vesting", 30 + 60⟩]⟩ :=
  C2_amended_register_always_appends 30 0 cfgBNB "vesting"
    ⟨[⟨.launcher cfgBNB 120 "vesting", 60, some "vesting", 90⟩]⟩ 0 2
    (by decide) (by decide) (by decide)

/-- C3 (corrected) counterexample: a refresh whose config fetch fails
does NOT keep the previously installed schedule — the vesting job
present before the refresh is gone afterwards, because the clear
happens before the load. -/
theorem C3_counterexample :
    refresh_vesting_schedules 90000 0 (.error "ConfigFetchError: provider unreachable")
        ⟨[⟨.launcher cfgBNB 120 "vesting", 60, some "vesting", 90⟩]⟩
      = (⟨[]⟩, some "ConfigFetchError: provider unreachable") ∧
    (⟨[]⟩ : SchedState) ≠ ⟨[⟨.launcher cfgBNB 120 "vesting", 60, some "vesting", 90⟩]⟩ :=
  ⟨by decide, by decide⟩

/-- C3 (corrected) amended claim: on a fetch failure the refresh has
already cleared every `vesting`-tagged job, so the resulting schedule
is the previous one with all vesting jobs removed (only jobs carrying
other tags survive), and the fetch error propagates out of the
refresh instead of being absorbed. -/
theorem C3_amended_refresh_error_clears (now off : ℤ) (e : String) (s : SchedState) :
    refresh_vesting_schedules now off (.error e) s = (clear_tag "vesting" s, some e) :=
  rfl

/-- C4 (corrected) counterexample: `cfgZeroDot` carries the amount
string `"0.0"`, which parses as the Decimal `0E-1` — numerically zero
(its coefficient is 0, so its value is 0) — yet executing its due vest
DOES invoke the native Transfer Executor capability, because the code
only skips on the literal string `"0"`. -/
theorem C4_counterexample :
    cfgZeroDot.value = "0.0" ∧
    parse_decimal cfgZeroDot.value = some ⟨0, -1⟩ ∧
    Dec.toVal ⟨0, -1⟩ = 0 ∧
    execute_vest_for_asset oW cfgZeroDot = [.nativeCall cfgZeroDot, .success "BNB"] ∧
    ExecEvent.nativeCall cfgZeroDot ∈ execute_vest_for_asset oW cfgZeroDot :=
  ⟨by decide, by decide, by simp [Dec.toVal], by decide, by decide⟩

/-- C4 (corrected) amended claim: only a config whose amount string is
literally `"0"` skips the Transfer Executor — the skip is an explicit
logged line followed by the normal success line, not an error; a
numerically-zero amount spelled any other way (such as `"0.0"`) still
invokes the executor. -/
theorem C4_amended_literal_zero_skips (o : Oracle) (cfg : Cfg) (hv : cfg.value = "0") :
    execute_vest_for_asset o cfg = [.zeroSkip cfg.asset, .success cfg.asset] ∧
    (∀ c, ExecEvent.nativeCall c ∉ execute_vest_for_asset o cfg) ∧
    (∀ c, ExecEvent.tokenCall c ∉ execute_vest_for_asset o cfg) := by
  have hbody : vest_try_body o cfg = ([.zeroSkip cfg.asset], .ok ()) := by
    unfold vest_try_body
    rw [if_neg (by simp [hv]), if_neg (by simp [hv]), if_pos hv]
  have hex : execute_vest_for_asset o cfg = [.zeroSkip cfg.asset, .success cfg.asset] := by
    unfold execute_vest_for_asset
    rw [hbody]
    rfl
  exact ⟨hex, fun c => by rw [hex]; simp, fun c => by rw [hex]; simp⟩

/-- Witness for C4's amended claim at the literal-`"0"` config. -/
theorem C4_amended_witness :
    execute_vest_for_asset oW cfgZeroLit
      = [.zeroSkip cfgZeroLit.asset, .success cfgZeroLit.asset] :=
  (C4_amended_literal_zero_skips oW cfgZeroLit (by decide)).1

/-- C8 (confirmed): the unsupported combination `chain="polygon"`,
`asset="USDT"` (erc20) is registered without error next to its valid
sibling — the whole batch schedules both jobs — and at execution time
the unsupported config fails on its own: `evm_tx_tokens` raises the
`ValueError` before any signing or broadcast, the error is caught at
that job's boundary, and the sibling's execution still succeeds. -/
theorem C8_unsupported_config_isolated :
    refresh_vesting_schedules 0 3600 (.ok [cfgPoly, cfgGoodUSDT]) ⟨[]⟩
      = (⟨[⟨.launcher cfgPoly 43200 "vesting", 60, some "vesting", 60⟩,
            ⟨.launcher cfgGoodUSDT 43200 "vesting", 60, some "vesting", 60⟩]⟩, none) ∧
    transfer_token_gcp oW cfgPoly.chain "usdt" cfgPoly.vault_id cfgPoly.destination
        cfgPoly.value cfgPoly.note
      = .error (unsupportedTokenMsg "usdt" "polygon") ∧
    execute_vest_for_asset oW cfgPoly
      = [.tokenCall cfgPoly, .errorCaught (unsupportedTokenMsg "usdt" "polygon")] ∧
    execute_vest_for_asset oW cfgGoodUSDT = [.tokenCall cfgGoodUSDT, .success "USDT"] :=
  ⟨by decide, by decide, by decide, by decide⟩

/-- The scheduling effect of one due job (its replacement and the jobs
it registers) does not depend on the oracle: execution outcomes are
consumed entirely inside `execute_vest_for_asset`. -/
theorem runJob_sched_oracle_indep (o o2 : Oracle) (t : ℤ) (j : SJob) :
    (runJob o t j).1 = (runJob o2 t j).1 ∧ (runJob o t j).2.1 = (runJob o2 t j).2.1 := by
  obtain ⟨task, iv, tg, nr⟩ := j
  cases task with
  | launcher cfg fr tg2 =>
      simp only [runJob]
      split <;> exact ⟨rfl, rfl⟩
  | vest cfg => exact ⟨rfl, rfl⟩

/-- Job-list processing: the surviving-job list and the newly
registered jobs of a tick are independent of the oracle. -/
theorem runJobs_sched_oracle_indep (o o2 : Oracle) (t : ℤ) (js : List SJob) :
    (runJobs o t js).1 = (runJobs o2 t js).1 ∧ (runJobs o t js).2.1 = (runJobs o2 t js).2.1 := by
  induction js with
  | nil => exact ⟨rfl, rfl⟩
  | cons j rest ih =>
      obtain ⟨h1, h2⟩ := runJob_sched_oracle_indep o o2 t j
      simp only [runJobs]
      by_cases hle : j.nextRun ≤ t
      · rw [if_pos hle, if_pos hle]
        exact ⟨by rw [h1, ih.1], by rw [h2, ih.2]⟩
      · rw [if_neg hle, if_neg hle]
        exact ⟨by rw [ih.1], ih.2⟩

/-- C7 (confirmed): one job's execution failure never escapes its
boundary.  First: the scheduler state a tick produces is identical for
any two oracles — whatever errors executions hit (signing, network,
API rejection, unsupported configuration), every due job is still run,
rescheduled or cancelled exactly the same way, so no failure aborts
the loop or affects another job's evaluation.  Second: whenever the
try body of an execution raises, `execute_vest_for_asset` returns
normally with the error turned into a logged line after the events
the body produced. -/
theorem C7_errors_isolated_per_job :
    (∀ (o o2 : Oracle) (t : ℤ) (s : SchedState),
        (run_pending o t s).1 = (run_pending o2 t s).1) ∧
    (∀ (o : Oracle) (cfg : Cfg) (evs : List ExecEvent) (e : String),
        vest_try_body o cfg = (evs, .error e) →
        execute_vest_for_asset o cfg = evs ++ [.errorCaught e]) := by
  constructor
  · intro o o2 t s
    obtain ⟨h1, h2⟩ := runJobs_sched_oracle_indep o o2 t s.jobs
    simp only [run_pending]
    rw [h1, h2]
  · intro o cfg evs e h
    unfold execute_vest_for_asset
    rw [h]

/-- Witness for C7: a tick over a two-job state is scheduled
identically under the all-success oracle and the failing-broadcast
oracle, and the failing execution of the valid USDT config is caught
as a logged error. -/
theorem C7_witness :
    (run_pending oW 150 ⟨[⟨.launcher cfgGoodUSDT 120 "vesting", 60, some "vesting", 150⟩,
        ⟨.vest cfgBNB, 86400, some "vesting", 100⟩]⟩).1
      = (run_pending oFail 150 ⟨[⟨.launcher cfgGoodUSDT 120 "vesting", 60, some "vesting", 150⟩,
          ⟨.vest cfgBNB, 86400, some "vesting", 100⟩]⟩).1 ∧
    execute_vest_for_asset oFail cfgGoodUSDT
      = [.tokenCall cfgGoodUSDT] ++ [.errorCaught "Network error occurred: connection refused"] :=
  ⟨C7_errors_isolated_per_job.1 oW oFail 150 _,
    C7_errors_isolated_per_job.2 oFail cfgGoodUSDT [.tokenCall cfgGoodUSDT]
      "Network error occurred: connection refused" (by decide)⟩

/-- C9 (confirmed): for every transfer execution that runs to
completion, the payload handed to the signer is exactly
`"<path>|<unix_timestamp>|<json_body>"` with path
`/api/v1/transactions`, and the body handed to the broadcast call is
byte-for-byte the same JSON string that was signed — for the native
and the token script alike. -/
theorem C9_signed_payload_is_posted_body :
    (∀ (o : Oracle) (chain vault_id destination value note : String) (tr : TransferTrace),
        transfer_native_gcp o chain vault_id destination value note = .ok tr →
        tr.path = "/api/v1/transactions" ∧
        tr.payload = tr.path ++ "|" ++ tr.timestamp ++ "|" ++ tr.request_body ∧
        o.sign tr.payload = .ok tr.signature ∧
        o.broadcast tr.path tr.access_token tr.signature tr.timestamp tr.request_body
          = .ok tr.response) ∧
    (∀ (o : Oracle) (chain token_ticker vault_id destination amount note : String)
        (tr : TransferTrace),
        transfer_token_gcp o chain token_ticker vault_id destination amount note = .ok tr →
        tr.path = "/api/v1/transactions" ∧
        tr.payload = tr.path ++ "|" ++ tr.timestamp ++ "|" ++ tr.request_body ∧
        o.sign tr.payload = .ok tr.signature ∧
        o.broadcast tr.path tr.access_token tr.signature tr.timestamp tr.request_body
          = .ok tr.response) := by
  constructor
  · intro o chain vault_id destination value note tr h
    unfold transfer_native_gcp at h
    simp only [bind, Except.bind, broadcast_tx] at h
    cases hsec : o.access_secret with
    | error e => rw [hsec] at h; simp at h
    | ok tok =>
        rw [hsec] at h
        cases hjson : evm_tx_native chain vault_id destination note value with
        | error e => rw [hjson] at h; simp at h
        | ok rj =>
            rw [hjson] at h
            dsimp only at h
            cases hsig : o.sign ("/api/v1/transactions" ++ "|" ++ o.timestamp ++ "|" ++ Json.dumps rj) with
            | error e => rw [hsig] at h; simp at h
            | ok sg =>
                rw [hsig] at h
                dsimp only at h
                cases hbc : o.broadcast "/api/v1/transactions" tok sg o.timestamp (Json.dumps rj) with
                | error e => rw [hbc] at h; simp at h
                | ok resp =>
                    rw [hbc] at h
                    simp only [pure, Except.pure, Except.ok.injEq] at h
                    subst h
                    exact ⟨rfl, rfl, hsig, hbc⟩
  · intro o chain token_ticker vault_id destination amount note tr h
    unfold transfer_token_gcp at h
    simp only [bind, Except.bind, broadcast_tx] at h
    cases hsec : o.access_secret with
    | error e => rw [hsec] at h; simp at h
    | ok tok =>
        rw [hsec] at h
        cases hjson : evm_tx_tokens chain vault_id destination note amount token_ticker with
        | error e => rw [hjson] at h; simp at h
        | ok rj =>
            rw [hjson] at h
            dsimp only at h
            cases hsig : o.sign ("/api/v1/transactions" ++ "|" ++ o.timestamp ++ "|" ++ Json.dumps rj) with
            | error e => rw [hsig] at h; simp at h
            | ok sg =>
                rw [hsig] at h
                dsimp only at h
                cases hbc : o.broadcast "/api/v1/transactions" tok sg o.timestamp (Json.dumps rj) with
                | error e => rw [hbc] at h; simp at h
                | ok resp =>
                    rw [hbc] at h
                    simp only [pure, Except.pure, Except.ok.injEq] at h
                    subst h
                    exact ⟨rfl, rfl, hsig, hbc⟩

set_option maxRecDepth 10000 in
/-- Witness for C9: concrete successful native and token transfers
under the all-success oracle satisfy the payload/body identities. -/
theorem C9_witness :
    (okTraceOr (transfer_native_gcp oW "bsc" "vault-1" "0xdest" "1.5" "note")
        ⟨"", "", "", "", "", "", ""⟩).path = "/api/v1/transactions" ∧
    (okTraceOr (transfer_native_gcp oW "bsc" "vault-1" "0xdest" "1.5" "note")
        ⟨"", "", "", "", "", "", ""⟩).payload
      = (okTraceOr (transfer_native_gcp oW "bsc" "vault-1" "0xdest" "1.5" "note")
          ⟨"", "", "", "", "", "", ""⟩).path ++ "|" ++
        (okTraceOr (transfer_native_gcp oW "bsc" "vault-1" "0xdest" "1.5" "note")
          ⟨"", "", "", "", "", "", ""⟩).timestamp ++ "|" ++
        (okTraceOr (transfer_native_gcp oW "bsc" "vault-1" "0xdest" "1.5" "note")
          ⟨"", "", "", "", "", "", ""⟩).request_body ∧
    (okTraceOr (transfer_token_gcp oW "bsc" "usdt" "vault-1" "0xdest" "1.5" "note")
        ⟨"", "", "", "", "", "", ""⟩).payload
      = (okTraceOr (transfer_token_gcp oW "bsc" "usdt" "vault-1" "0xdest" "1.5" "note")
          ⟨"", "", "", "", "", "", ""⟩).path ++ "|" ++
        (okTraceOr (transfer_token_gcp oW "bsc" "usdt" "vault-1" "0xdest" "1.5" "note")
          ⟨"", "", "", "", "", "", ""⟩).timestamp ++ "|" ++
        (okTraceOr (transfer_token_gcp oW "bsc" "usdt" "vault-1" "0xdest" "1.5" "note")
          ⟨"", "", "", "", "", "", ""⟩).request_body :=
  have hn : transfer_native_gcp oW "bsc" "vault-1" "0xdest" "1.5" "note"
      = .ok (okTraceOr (transfer_native_gcp oW "bsc" "vault-1" "0xdest" "1.5" "note")
          ⟨"", "", "", "", "", "", ""⟩) := by decide
  have ht : transfer_token_gcp oW "bsc" "usdt" "vault-1" "0xdest" "1.5" "note"
      = .ok (okTraceOr (transfer_token_gcp oW "bsc" "usdt" "vault-1" "0xdest" "1.5" "note")
          ⟨"", "", "", "", "", "", ""⟩) := by decide
  ⟨(C9_signed_payload_is_posted_body.1 oW "bsc" "vault-1" "0xdest" "1.5" "note" _ hn).1,
    (C9_signed_payload_is_posted_body.1 oW "bsc" "vault-1" "0xdest" "1.5" "note" _ hn).2.1,
    (C9_signed_payload_is_posted_body.2 oW "bsc" "usdt" "vault-1" "0xdest" "1.5" "note" _ ht).2.1⟩

/-- The digit counter ignores its fuel once the fuel exceeds the
argument. -/
theorem numDigitsAux_congr : ∀ (f1 f2 n : ℕ), n < f1 → n < f2 →
    numDigitsAux f1 n = numDigitsAux f2 n := by
  intro f1
  induction f1 with
  | zero => intro f2 n h1 h2; omega
  | succ g1 ih =>
      intro f2 n h1 h2
      cases f2 with
      | zero => omega
      | succ g2 =>
          simp only [numDigitsAux]
          by_cases h : n < 10
          · simp [h]
          · rw [if_neg h, if_neg h]
            rw [ih g2 (n / 10) (by omega) (by omega)]

/-- One-digit case of the digit counter. -/
theorem numDigits_lt10 (n : ℕ) (h : n < 10) : numDigits n = 1 := by
  simp [numDigits, numDigitsAux, h]

/-- Unfolding step of the digit counter. -/
theorem numDigits_ge10 (n : ℕ) (h : 10 ≤ n) : numDigits n = numDigits (n / 10) + 1 := by
  unfold numDigits
  simp only [numDigitsAux]
  rw [if_neg (by omega)]
  congr 1
  exact numDigitsAux_congr n (n / 10 + 1) (n / 10) (by omega) (by omega)

/-- A number below `10 ^ m` has at most `m` digits. -/
theorem numDigits_le_of_lt_pow : ∀ (c m : ℕ), 1 ≤ m → c < 10 ^ m → numDigits c ≤ m := by
  intro c
  induction c using Nat.strong_induction_on with
  | _ c ih =>
      intro m hm h
      by_cases h10 : c < 10
      · rw [numDigits_lt10 c h10]; exact hm
      · push_neg at h10
        rw [numDigits_ge10 c h10]
        have hm2 : 2 ≤ m := by
          by_contra hc
          have hm1 : m = 1 := by omega
          rw [hm1, pow_one] at h
          omega
        have hpow : 10 ^ m = 10 ^ (m - 1) * 10 := by
          rw [← pow_succ]
          congr 1
          omega
        have hd : c / 10 < 10 ^ (m - 1) := by
          rw [hpow] at h
          omega
        have := ih (c / 10) (by omega) (m - 1) (by omega) hd
        omega

/-- Rounding half-even while dropping only zero digits is exact
division. -/
theorem roundHalfEvenDiv_exact (c k : ℕ) (hk : 1 ≤ k) (hd : 10 ^ k ∣ c) :
    roundHalfEvenDiv c k = c / 10 ^ k := by
  unfold roundHalfEvenDiv
  dsimp only
  have hpos : 0 < 10 ^ k := by positivity
  have hr : c % 10 ^ k = 0 := Nat.mod_eq_zero_of_dvd hd
  have h10 : 10 ≤ 10 ^ k := by
    calc 10 = 10 ^ 1 := (pow_one 10).symm
    _ ≤ 10 ^ k := Nat.pow_le_pow_right (by norm_num) hk
  rw [hr]
  rw [if_neg (by omega), if_pos (by omega)]

/-- Dropping `k` trailing zero digits of the coefficient while raising
the exponent by `k` does not change the truncated integer value. -/
theorem intOfDec_shift_of_dvd (c k : ℕ) (e : ℤ) (hd : 10 ^ k ∣ c) :
    intOfDec ⟨c / 10 ^ k, e + k⟩ = intOfDec ⟨c, e⟩ := by
  obtain ⟨m, rfl⟩ := hd
  have hpos : 0 < 10 ^ k := by positivity
  rw [Nat.mul_div_cancel_left m hpos]
  unfold intOfDec
  dsimp only
  rcases le_or_lt 0 e with he | he
  · rw [if_pos (by omega), if_pos he]
    have h1 : (e + (k : ℤ)).toNat = e.toNat + k := by omega
    rw [h1, pow_add]
    ring
  · rcases le_or_lt 0 (e + (k : ℤ)) with hek | hek
    · rw [if_pos hek, if_neg (by omega)]
      have h2 : 10 ^ k = 10 ^ (-e).toNat * 10 ^ (e + (k : ℤ)).toNat := by
        rw [← pow_add]
        congr 1
        omega
      calc m * 10 ^ (e + (k : ℤ)).toNat
          = 10 ^ (-e).toNat * (m * 10 ^ (e + (k : ℤ)).toNat) / 10 ^ (-e).toNat := by
            rw [Nat.mul_div_cancel_left _ (by positivity)]
        _ = 10 ^ k * m / 10 ^ (-e).toNat := by
            rw [h2]
            ring_nf
    · rw [if_neg (by omega), if_neg (by omega)]
      have h3 : 10 ^ (-e).toNat = 10 ^ k * 10 ^ (-(e + (k : ℤ))).toNat := by
        rw [← pow_add]
        congr 1
        omega
      rw [h3, Nat.mul_div_mul_left _ _ hpos]

/-- Multiplying a Decimal whose coefficient has at most 28 digits by
an exact power of ten and truncating gives the exact truncated
product: the context rounding drops only trailing zero digits. -/
theorem decMul_pow10_exact (a : Dec) (n : ℕ) (ha : a.coeff < 10 ^ 28) :
    intOfDec (decMul a ⟨10 ^ n, 0⟩) = truncScaled a (10 ^ n) := by
  unfold decMul truncScaled
  dsimp only
  rw [add_zero]
  by_cases hle : numDigits (a.coeff * 10 ^ n) ≤ 28
  · rw [if_pos hle]
  · rw [if_neg hle]
    push_neg at hle
    have hcbound : a.coeff * 10 ^ n < 10 ^ (28 + n) := by
      rw [pow_add]
      exact Nat.mul_lt_mul_of_lt_of_le ha (le_refl _) (by positivity)
    have hdig : numDigits (a.coeff * 10 ^ n) ≤ 28 + n :=
      numDigits_le_of_lt_pow _ (28 + n) (by omega) hcbound
    have hkn : numDigits (a.coeff * 10 ^ n) - 28 ≤ n := by omega
    have hdvd : 10 ^ (numDigits (a.coeff * 10 ^ n) - 28) ∣ a.coeff * 10 ^ n :=
      Dvd.dvd.mul_left (pow_dvd_pow 10 hkn) a.coeff
    rw [roundHalfEvenDiv_exact _ _ (by omega) hdvd]
    exact intOfDec_shift_of_dvd _ _ a.exp hdvd

/-- The ideal scaling really is the claim's "truncation toward zero of
amount times scale": it equals the rational floor of
`toVal * scale` (truncation and floor agree on non-negative values). -/
theorem truncScaled_eq_floor (d : Dec) (s : ℕ) :
    (truncScaled d s : ℤ) = ⌊d.toVal * (s : ℚ)⌋ := by
  unfold truncScaled intOfDec Dec.toVal
  dsimp only
  rcases le_or_lt 0 d.exp with he | he
  · rw [if_pos he]
    have h1 : (10 : ℚ) ^ d.exp = ((10 ^ d.exp.toNat : ℕ) : ℚ) := by
      rw [← Int.toNat_of_nonneg he, zpow_natCast]
      push_cast
      rfl
    rw [h1]
    rw [show (d.coeff : ℚ) * ((10 ^ d.exp.toNat : ℕ) : ℚ) * (s : ℚ)
        = ((d.coeff * s * 10 ^ d.exp.toNat : ℕ) : ℚ) by push_cast; ring]
    rw [Int.floor_natCast]
  · rw [if_neg (by omega)]
    obtain ⟨j, hj⟩ : ∃ j : ℕ, d.exp = -(j : ℤ) := ⟨(-d.exp).toNat, by omega⟩
    have hjt : (-d.exp).toNat = j := by omega
    rw [hjt, hj]
    have h1 : (10 : ℚ) ^ (-(j : ℤ)) = (((10 ^ j : ℕ) : ℚ))⁻¹ := by
      rw [zpow_neg, zpow_natCast]
      push_cast
      rfl
    rw [h1]
    rw [show (d.coeff : ℚ) * (((10 ^ j : ℕ) : ℚ))⁻¹ * (s : ℚ)
        = ((d.coeff * s : ℕ) : ℚ) / ((10 ^ j : ℕ) : ℚ) by push_cast; ring]
    have hq : (0 : ℚ) ≤ ((d.coeff * s : ℕ) : ℚ) / ((10 ^ j : ℕ) : ℚ) := by positivity
    have h2 : ((⌊((d.coeff * s : ℕ) : ℚ) / ((10 ^ j : ℕ) : ℚ)⌋₊ : ℕ) : ℤ)
        = ⌊((d.coeff * s : ℕ) : ℚ) / ((10 ^ j : ℕ) : ℚ)⌋ := by
      rw [← Int.floor_toNat]
      exact Int.toNat_of_nonneg (Int.floor_nonneg.mpr hq)
    rw [← h2, Nat.floor_div_nat, Nat.floor_natCast]

/-- C10 (corrected) counterexample: the amount
`"0.9999999999999999999999999999999"` (31 significant digits) parses
as the Decimal `(10^31 - 1) * 10^-31`.  The code places
`"1000000000000000000"` in the payload — the default context rounds
the 49-digit product up to 28 digits before `int()` — while the exact
truncation of `amount * 10^18` renders as `"999999999999999999"`. -/
theorem C10_counterexample :
    parse_decimal hugeAmt = some ⟨10 ^ 31 - 1, -31⟩ ∧
    value_in_wei hugeAmt = some "1000000000000000000" ∧
    jsonValueField (evm_tx_native "bsc" "vault-1" "0xdest" "note" hugeAmt)
      = some "1000000000000000000" ∧
    Nat.repr (truncScaled ⟨10 ^ 31 - 1, -31⟩ (10 ^ 18)) = "999999999999999999" ∧
    ("1000000000000000000" : String) ≠ "999999999999999999" :=
  ⟨by decide, by decide, by decide, by decide, by decide⟩

/-- C10 (corrected) amended claim: for every amount string that parses
as a non-negative plain Decimal whose coefficient stays below the
28-digit context precision (every realistic vesting amount), the
on-chain value placed in the transfer payload is exactly the decimal
rendering of the truncation (toward zero) of amount times the fixed
per-asset scale — `10^18` for native transfers and the 18-decimal
tokens (USDT on bsc, PEPE and BASEDAI on ethereum), `10^6` for USDT on
ethereum — with fractional base units silently discarded.  Beyond 28
significant digits the context rounds half-even first (see the
counterexample). -/
theorem C10_amended_scaling (value : String) (d : Dec) (vault_id destination note : String)
    (hp : parse_decimal value = some d) (hc : d.coeff < 10 ^ 28) :
    value_in_wei value = some (Nat.repr (truncScaled d (10 ^ 18))) ∧
    value_six_decimals value = some (Nat.repr (truncScaled d (10 ^ 6))) ∧
    jsonValueField (evm_tx_native "bsc" vault_id destination note value)
      = some (Nat.repr (truncScaled d (10 ^ 18))) ∧
    jsonValueField (evm_tx_tokens "bsc" vault_id destination note value "usdt")
      = some (Nat.repr (truncScaled d (10 ^ 18))) ∧
    jsonValueField (evm_tx_tokens "ethereum" vault_id destination note value "usdt")
      = some (Nat.repr (truncScaled d (10 ^ 6))) ∧
    jsonValueField (evm_tx_tokens "ethereum" vault_id destination note value "pepe")
      = some (Nat.repr (truncScaled d (10 ^ 18))) ∧
    jsonValueField (evm_tx_tokens "ethereum" vault_id destination note value "basedai")
      = some (Nat.repr (truncScaled d (10 ^ 18))) := by
  have h18 : value_in_wei value = some (Nat.repr (truncScaled d (10 ^ 18))) := by
    unfold value_in_wei
    rw [hp]
    dsimp only [Option.map]
    rw [show dec18 = (⟨10 ^ 18, 0⟩ : Dec) from rfl, decMul_pow10_exact d 18 hc]
  have h6 : value_six_decimals value = some (Nat.repr (truncScaled d (10 ^ 6))) := by
    unfold value_six_decimals
    rw [hp]
    dsimp only [Option.map]
    rw [show dec6 = (⟨10 ^ 6, 0⟩ : Dec) from rfl, decMul_pow10_exact d 6 hc]
  refine ⟨h18, h6, ?_, ?_, ?_, ?_, ?_⟩
  · unfold evm_tx_native
    rw [h18]
    rfl
  · unfold evm_tx_tokens
    rw [h18, h6]
    rfl
  · unfold evm_tx_tokens
    rw [h18, h6]
    rfl
  · unfold evm_tx_tokens
    rw [h18, h6]
    rfl
  · unfold evm_tx_tokens
    rw [h18, h6]
    rfl

/-- Witness for C10's amended claim at the amount `"1.5"`. -/
theorem C10_amended_witness :
    value_in_wei "1.5" = some (Nat.repr (truncScaled ⟨15, -1⟩ (10 ^ 18))) ∧
    value_six_decimals "1.5" = some (Nat.repr (truncScaled ⟨15, -1⟩ (10 ^ 6))) ∧
    jsonValueField (evm_tx_native "bsc" "vault-1" "0xdest" "note" "1.5")
      = some (Nat.repr (truncScaled ⟨15, -1⟩ (10 ^ 18))) ∧
    jsonValueField (evm_tx_tokens "bsc" "vault-1" "0xdest" "note" "1.5" "usdt")
      = some (Nat.repr (truncScaled ⟨15, -1⟩ (10 ^ 18))) ∧
    jsonValueField (evm_tx_tokens "ethereum" "vault-1" "0xdest" "note" "1.5" "usdt")
      = some (Nat.repr (truncScaled ⟨15, -1⟩ (10 ^ 6))) ∧
    jsonValueField (evm_tx_tokens "ethereum" "vault-1" "0xdest" "note" "1.5" "pepe")
      = some (Nat.repr (truncScaled ⟨15, -1⟩ (10 ^ 18))) ∧
    jsonValueField (evm_tx_tokens "ethereum" "vault-1" "0xdest" "note" "1.5" "basedai")
      = some (Nat.repr (truncScaled ⟨15, -1⟩ (10 ^ 18))) :=
  C10_amended_scaling "1.5" ⟨15, -1⟩ "vault-1" "0xdest" "note" (by decide) (by decide)
